import Mathlib

/-!
Verification development for the pro_calculator client (`script.js`).

The client-side code is shallowly embedded: the mutable globals of the
script (`currentExpression`, `shouldResetOnNextInput`, `history`,
`lastVoiceExpression`, `lastVoiceTimestamp`, the `voiceUI` state and the
`voiceControl` object fields) become one explicit `ClientState` record,
and every function that mutates them becomes a state transformer.
Network requests issued by the code (`fetch` POSTs and the `EventSource`
stream opening) are recorded in a ghost trace field `netLog`.
JavaScript platform builtins that the script merely delegates to
(`new Function('return ' + expr)()` and number-to-string formatting)
are passed in as an explicit `JsRuntime` oracle; every branch the
script itself takes is modelled directly.
Timestamps (`Date.now()`) are passed in explicitly as integers.
-/

namespace ProCalc

/-- Result of the JavaScript runtime evaluating `new Function('return ' + expr)()`:
the call can throw, return a non-finite number (`Infinity`/`NaN`), or return a
finite number (modelled as a rational). -/
inductive JsEvalResult
  | thrown
  | nonFinite
  | finite (q : ℚ)
  deriving DecidableEq

/-- The JavaScript platform builtins the script delegates to: arithmetic
evaluation via the `Function` constructor, `Number.prototype.toString`, and
`Number.prototype.toExponential(6)`. -/
structure JsRuntime where
  evalArith : String → JsEvalResult
  numToString : ℚ → String
  numToExponential6 : ℚ → String

/-- Characters kept by `safeEvaluate`'s cleaning step
`expression.replace(/[^0-9+\-*\/.()%]/g, '')`. -/
def isEvalAllowedChar (c : Char) : Bool :=
  c.isDigit || c = '+' || c = '-' || c = '*' || c = '/' || c = '.' || c = '(' || c = ')' || c = '%'

/-- The cleaning step of `safeEvaluate`: drop every character outside
`[0-9+\-*\/.()%]`. -/
def cleanEvalChars (s : String) : String :=
  String.mk (s.data.filter isEvalAllowedChar)

/-- Split a character list into its maximal leading digit run and the rest
(the `\d+` part of the percent regex). -/
def digitsSpan : List Char → List Char × List Char
  | [] => ([], [])
  | c :: cs =>
    if c.isDigit then
      let p := digitsSpan cs
      (c :: p.1, p.2)
    else
      ([], c :: cs)

/-- Try to match the regex `(\d+(?:\.\d+)?)%` at the head of the list.
On success, return the capture group `$1` and the characters after the `%`.
Backtracking inside the greedy `\d+` parts can never rescue a failed match
(shrinking a digit run leaves a digit as the next character, which matches
neither `.` nor `%`), so this deterministic scan is the regex semantics. -/
def percentMatchHere (l : List Char) : Option (List Char × List Char) :=
  match digitsSpan l with
  | ([], _) => none
  | (d, rest) =>
    match rest with
    | '%' :: r2 => some (d, r2)
    | '.' :: r2 =>
      match digitsSpan r2 with
      | ([], _) => none
      | (d2, r3) =>
        match r3 with
        | '%' :: r4 => some (d ++ '.' :: d2, r4)
        | _ => none
    | _ => none

/-- One pass of the global replacement
`expr.replace(/(\d+(?:\.\d+)?)%/g, '($1/100)')`, written with an explicit
fuel argument to make the recursion structural; each step consumes at least
one character, so fuel equal to the list length never runs out. -/
def percentScanAux : Nat → List Char → List Char
  | 0, l => l
  | _ + 1, [] => []
  | fuel + 1, c :: cs =>
    match percentMatchHere (c :: cs) with
    | some (cap, rest) =>
      '(' :: (cap ++ '/' :: '1' :: '0' :: '0' :: ')' :: percentScanAux fuel rest)
    | none => c :: percentScanAux fuel cs

/-- The percentage-handling step of `safeEvaluate`:
`expr.replace(/(\d+(?:\.\d+)?)%/g, '($1/100)')`. -/
def percentReplace (s : String) : String :=
  String.mk (percentScanAux s.data.length s.data)

/-- The division-by-zero guard of `safeEvaluate`: `expr.includes('/0')`. -/
def containsDivZero : List Char → Bool
  | '/' :: '0' :: _ => true
  | _ :: rest => containsDivZero rest
  | [] => false

/-- `parseFloat(result.toFixed(12))`: rounding to 12 decimal places,
modelled exactly on rationals. -/
def roundTo12 (q : ℚ) : ℚ :=
  (round (q * 10 ^ 12) : ℚ) / 10 ^ 12

/-- The expression text `safeEvaluate` actually inspects with its
division-by-zero guard and hands to the `Function` constructor: the input
after character cleaning and percentage replacement. -/
def safeEvaluatePrepared (expression : String) : String :=
  percentReplace (cleanEvalChars expression)

/-- `safeEvaluate(expression)` from `script.js`. Every internal throw
(`'Division by zero'`, an evaluation exception, `'Invalid result'` for a
non-finite value) is caught by the surrounding `try`/`catch` and re-thrown
as `'Invalid expression'`, so the externally visible outcome is either that
error or the rounded finite result. -/
def safeEvaluate (rt : JsRuntime) (expression : String) : Except String ℚ :=
  let expr := safeEvaluatePrepared expression
  if containsDivZero expr.data then
    Except.error "Invalid expression"
  else
    match rt.evalArith expr with
    | JsEvalResult.thrown => Except.error "Invalid expression"
    | JsEvalResult.nonFinite => Except.error "Invalid expression"
    | JsEvalResult.finite q => Except.ok (roundTo12 q)

/-- `formatNumber(num)` from `script.js`: exponential form for very large or
very small magnitudes, plain `toString` otherwise. -/
def formatNumber (rt : JsRuntime) (num : ℚ) : String :=
  if 10 ^ 12 < |num| ∨ (|num| < 1 / 10 ^ 6 ∧ num ≠ 0) then
    rt.numToExponential6 num
  else
    rt.numToString num

/-- The four values `voiceUI.set` is called with as its `state` argument. -/
inductive UiState
  | idle
  | listening
  | calibrating
  | error
  deriving DecidableEq

/-- The `voiceUI` object's own fields `state` and `message`
(always assigned by `voiceUI.set`; the `level` argument only gates the DOM
text update, not these fields). -/
structure VoiceUI where
  state : UiState
  message : String
  deriving DecidableEq

/-- One history entry `{expr, result, ts}` as built by `addToHistory`. -/
structure HistoryEntry where
  expr : String
  result : ℚ
  ts : ℤ
  deriving DecidableEq

/-- The mutable client state of `script.js` touched by the voice pipeline:
the host calculator globals, the voice dedup pair, the `voiceUI` state and
the `voiceControl` fields, plus a ghost trace `netLog` of the network
requests issued (`fetch` POSTs and the `EventSource` opening). -/
structure ClientState where
  currentExpression : String
  shouldResetOnNextInput : Bool
  history : List HistoryEntry
  lastVoiceExpression : String
  lastVoiceTimestamp : ℤ
  ui : VoiceUI
  active : Bool
  eventSourceOpen : Bool
  reconnectTimerPending : Bool
  reconnectAttempts : Nat
  netLog : List String
  deriving DecidableEq

/-- `clearAll()` from `script.js`. -/
def clearAll (s : ClientState) : ClientState :=
  { s with currentExpression := "", shouldResetOnNextInput := false }

/-- `backspace()` from `script.js`: drop the last character
(`currentExpression.slice(0, -1)`), a no-op on an empty expression. -/
def backspace (s : ClientState) : ClientState :=
  if s.currentExpression = "" then s
  else { s with currentExpression := String.mk s.currentExpression.data.dropLast }

/-- `addToHistory(expression, result)` from `script.js`: push a new entry in
front and keep the first 100 (`history.unshift(entry); history.slice(0, 100)`).
The `localStorage` write and DOM re-render are outside the state model. -/
def addToHistory (now : ℤ) (expression : String) (result : ℚ) (s : ClientState) : ClientState :=
  { s with history := (({ expr := expression, result := result, ts := now } : HistoryEntry) :: s.history).take 100 }

/-- Characters in the trailing-operator strip `expr.replace(/[+\-*\/%]+$/, '')`
of `calculate()`. -/
def isTrailingOpChar (c : Char) : Bool :=
  c = '+' || c = '-' || c = '*' || c = '/' || c = '%'

/-- `expr.replace(/[+\-*\/%]+$/, '')`: remove the maximal trailing run of
operator characters. -/
def stripTrailingOperators (s : String) : String :=
  String.mk (s.data.reverse.dropWhile isTrailingOpChar).reverse

/-- `calculate()` from `script.js`, at the state level. Animation and DOM
work is dropped; the 500ms-delayed assignment of the formatted result to
`currentExpression` (with `shouldResetOnNextInput = true`) is modelled as
part of the same step. A surplus of `)` makes `')'.repeat(openCount -
closeCount)` throw a `RangeError`, and an evaluation failure throws too; both
are caught by the surrounding `try`/`catch`, which only shows an error
animation, so the state is unchanged on those paths. -/
def calculate (rt : JsRuntime) (now : ℤ) (s : ClientState) : ClientState :=
  if s.currentExpression = "" then s
  else
    let openCount := s.currentExpression.data.count '('
    let closeCount := s.currentExpression.data.count ')'
    if openCount < closeCount then s
    else
      let expr := s.currentExpression ++ String.mk (List.replicate (openCount - closeCount) ')')
      let expr := stripTrailingOperators expr
      if expr = "" then s
      else
        match safeEvaluate rt expr with
        | Except.error _ => s
        | Except.ok result =>
          let formatted := formatNumber rt result
          let s1 := addToHistory now s.currentExpression result s
          { s1 with currentExpression := formatted, shouldResetOnNextInput := true }

/-- Characters kept by `injectVoiceExpression`'s sanitization
`expression.replace(/[^0-9+\-*\/().]/g, '')`. -/
def isVoiceAllowedChar (c : Char) : Bool :=
  c.isDigit || c = '+' || c = '-' || c = '*' || c = '/' || c = '(' || c = ')' || c = '.'

/-- The sanitization step of `injectVoiceExpression`: keep only digits, the
four arithmetic operator symbols, parentheses, and the decimal point. -/
def sanitizeVoice (s : String) : String :=
  String.mk (s.data.filter isVoiceAllowedChar)

/-- `injectVoiceExpression(expression, confidence = 1)` from `script.js`.
`expression` is `none` for a `null`/`undefined` argument; `Date.now()` is
passed in as `now`. The falsy check `if (!expression) return` covers the
empty string as well, so both are early exits. -/
def injectVoiceExpression (now : ℤ) (expression : Option String) (confidence : ℚ)
    (s : ClientState) : ClientState :=
  match expression with
  | none => s
  | some e =>
    if e = "" then s
    else
      let sanitized := sanitizeVoice e
      if sanitized = "" then s
      else if sanitized = s.lastVoiceExpression ∧ now - s.lastVoiceTimestamp < 300 then s
      else
        let s1 :=
          if s.shouldResetOnNextInput then
            { s with currentExpression := "", shouldResetOnNextInput := false }
          else s
        let s2 := { s1 with currentExpression := sanitized,
                            lastVoiceExpression := sanitized,
                            lastVoiceTimestamp := now }
        if confidence < (0.4 : ℚ) then
          { s2 with ui := { state := UiState.listening, message := "Low confidence, please repeat" } }
        else s2

/-- `voiceControl.stop({silent})` from `script.js`: clear any pending
reconnect timer, close the event source, POST to `/voice/stop` (a network
failure of that fetch is only logged, so the state effect is the same),
deactivate, zero the attempt counter, and unless silent show `Mic off`. -/
def vcStop (silent : Bool) (s : ClientState) : ClientState :=
  let s1 := { s with reconnectTimerPending := false,
                     eventSourceOpen := false,
                     netLog := s.netLog ++ ["POST /voice/stop"],
                     active := false,
                     reconnectAttempts := 0 }
  if silent then s1
  else { s1 with ui := { state := UiState.idle, message := "Mic off" } }

/-- `voiceControl._openEventStream()` from `script.js`: any previous source
is closed and a fresh `EventSource` on `/voice/stream` is opened (recorded
in the ghost trace). -/
def openEventStream (s : ClientState) : ClientState :=
  { s with eventSourceOpen := true, netLog := s.netLog ++ ["OPEN /voice/stream"] }

/-- `voiceControl.start()` from `script.js`. `startOk` is the outcome of the
`fetch POST /voice/start` (false covers both a network throw and a non-ok
response, which take the same catch path). When already active, the method
returns before any fetch, only re-showing the Listening status. -/
def vcStart (startOk : Bool) (s : ClientState) : ClientState :=
  if s.active then
    { s with ui := { state := UiState.listening, message := "Listening…" } }
  else
    let s1 := { s with ui := { state := UiState.calibrating, message := "Connecting to microphone…" },
                       netLog := s.netLog ++ ["POST /voice/start"] }
    if startOk then
      openEventStream { s1 with active := true, reconnectAttempts := 0 }
    else
      { s1 with active := false, ui := { state := UiState.error, message := "Voice service unavailable" } }

/-- `voiceControl._scheduleReconnect()` from `script.js`, up to the point
where the 2s timer is armed. At the 4-attempt cap it calls
`stop({silent:true})` (whose synchronous part runs first) and then shows the
terminal `Voice connection lost` error. -/
def vcScheduleReconnect (s : ClientState) : ClientState :=
  if s.reconnectTimerPending then s
  else if 4 ≤ s.reconnectAttempts then
    { vcStop true s with ui := { state := UiState.error, message := "Voice connection lost" } }
  else
    { s with reconnectAttempts := s.reconnectAttempts + 1, reconnectTimerPending := true }

/-- The body of the 2s reconnect timer armed by `_scheduleReconnect`: the
timer handle is cleared, `/voice/start` is POSTed again, and on success the
stream is reopened while on failure `_scheduleReconnect` runs again. -/
def vcReconnectTimerFire (startOk : Bool) (s : ClientState) : ClientState :=
  let s1 := { s with reconnectTimerPending := false, netLog := s.netLog ++ ["POST /voice/start"] }
  if startOk then
    { openEventStream s1 with ui := { state := UiState.listening, message := "Listening…" } }
  else
    vcScheduleReconnect s1

/-- The `eventSource.onerror` handler installed by `_openEventStream`: the
source is closed; an inactive client just shows `Mic off`, an active one
shows the reconnecting status and schedules a reconnect. -/
def vcStreamError (s : ClientState) : ClientState :=
  let s1 := { s with eventSourceOpen := false }
  if s1.active = false then
    { s1 with ui := { state := UiState.idle, message := "Mic off" } }
  else
    vcScheduleReconnect { s1 with ui := { state := UiState.error, message := "Reconnecting voice link…" } }

/-- A `result` payload's fields as read by `handleVoiceResult` /
`handleVoicePayload`. Each field is `none` when the property is absent
(`undefined`); for `expression`, `some none` is an explicit JSON `null` and
`some (some t)` a string (the distinction matters because the `clear` case
compares `payload.expression === null`). A JSON array payload behaves like
an object all of whose lookups are `undefined`, i.e. like the all-`none`
record. -/
structure VoicePayload where
  type : Option String
  state : Option String
  message : Option String
  level : Option String
  action : Option String
  expression : Option (Option String)
  expression_confidence : Option ℚ
  deriving DecidableEq

/-- Flatten a payload's `expression` property for a call site that only
distinguishes falsy (`undefined`/`null`, and later `''`) from a string. -/
def jsExpressionArg (e : Option (Option String)) : Option String :=
  e.bind id

/-- JavaScript truthiness of the `expression` property, as tested by
`if (payload.expression)` in the `calculate` case. -/
def jsExpressionTruthy (e : Option (Option String)) : Bool :=
  match e with
  | some (some t) => decide (t ≠ "")
  | _ => false

/-- `handleVoiceResult(payload)` from `script.js`: the `switch` on
`payload.action`. The `clear` case's two branches both call `clearAll()`;
the `default` case is an explicit `break`, i.e. a no-op. -/
def handleVoiceResult (rt : JsRuntime) (now : ℤ) (p : VoicePayload) (s : ClientState) : ClientState :=
  if p.action = some "append_expression" then
    injectVoiceExpression now (jsExpressionArg p.expression) (p.expression_confidence.getD 1) s
  else if p.action = some "calculate" then
    let s1 :=
      if jsExpressionTruthy p.expression then
        injectVoiceExpression now (jsExpressionArg p.expression) (p.expression_confidence.getD 1) s
      else s
    calculate rt now s1
  else if p.action = some "clear" then
    if p.expression = some none then clearAll s else clearAll s
  else if p.action = some "backspace" then
    backspace s
  else if p.action = some "stop" then
    vcStop false s
  else s

/-- JavaScript `a || d` for an optional string property: the default wins on
`undefined` and on the empty string. -/
def jsOrDefault (o : Option String) (d : String) : String :=
  match o with
  | some v => if v = "" then d else v
  | none => d

/-- `deriveVoiceState(rawState)` from `script.js`. -/
def deriveVoiceState (raw : String) : UiState :=
  if raw = "calibrating" ∨ raw = "listening" then UiState.listening
  else if raw = "error" then UiState.error
  else UiState.idle

/-- A JSON value that is not an object: `null`, a boolean, a number or a
string. All of these are turned away by the
`if (!payload || typeof payload !== 'object') return;` guard (`null` by the
falsiness test, the rest by the `typeof` test). -/
inductive JsScalar
  | null
  | bool (b : Bool)
  | num (q : ℚ)
  | str (t : String)
  deriving DecidableEq

/-- A successfully parsed incoming JSON value, split by the object guard of
`handleVoicePayload`. -/
inductive IncomingJson
  | nonObject (v : JsScalar)
  | object (p : VoicePayload)
  deriving DecidableEq

/-- `handleVoicePayload(payload)` from `script.js`: non-objects are dropped;
a `status` payload updates the UI via `voiceUI.set`; a `result` payload
first shows `Listening…` and is then dispatched to `handleVoiceResult`;
any other `type` falls through with no effect. -/
def handleVoicePayload (rt : JsRuntime) (now : ℤ) (v : IncomingJson) (s : ClientState) : ClientState :=
  match v with
  | IncomingJson.nonObject _ => s
  | IncomingJson.object p =>
    if p.type = some "status" then
      { s with ui := { state := deriveVoiceState (jsOrDefault p.state "idle"),
                       message := jsOrDefault p.message "Listening…" } }
    else if p.type = some "result" then
      handleVoiceResult rt now p
        { s with ui := { state := UiState.listening, message := "Listening…" } }
    else s

/-- One raw message arriving on the event stream, as seen by the
`eventSource.onmessage` handler: empty data (ignored by `if (!event.data)`),
data on which `JSON.parse` throws (the error is logged and the message
dropped), or a parsed JSON value. -/
inductive StreamMessage
  | empty
  | unparseable
  | parsed (v : IncomingJson)
  deriving DecidableEq

/-- The `eventSource.onmessage` handler installed by `_openEventStream`. -/
def onStreamMessage (rt : JsRuntime) (now : ℤ) (m : StreamMessage) (s : ClientState) : ClientState :=
  match m with
  | StreamMessage.empty => s
  | StreamMessage.unparseable => s
  | StreamMessage.parsed v => handleVoicePayload rt now v s

/-- `n` consecutive failed reconnect-timer firings (each one a POST to
`/voice/start` that fails). -/
def iterateFailedFire : Nat → ClientState → ClientState
  | 0, s => s
  | n + 1, s => iterateFailedFire n (vcReconnectTimerFire false s)

/-- A sample client state used to instantiate hypotheses of the theorems
below at concrete inputs: freshly loaded page, mic off. -/
def initialState : ClientState :=
  { currentExpression := ""
    shouldResetOnNextInput := false
    history := []
    lastVoiceExpression := ""
    lastVoiceTimestamp := 0
    ui := { state := UiState.idle, message := "Mic off" }
    active := false
    eventSourceOpen := false
    reconnectTimerPending := false
    reconnectAttempts := 0
    netLog := [] }

/-- A sample client state in the middle of a voice session: listening, with
`"1+1"` accepted from voice at timestamp 0. -/
def listeningState : ClientState :=
  { currentExpression := "1+1"
    shouldResetOnNextInput := false
    history := []
    lastVoiceExpression := "1+1"
    lastVoiceTimestamp := 0
    ui := { state := UiState.listening, message := "Listening…" }
    active := true
    eventSourceOpen := true
    reconnectTimerPending := false
    reconnectAttempts := 0
    netLog := ["POST /voice/start", "OPEN /voice/stream"] }

/-- A concrete `JsRuntime` oracle used to instantiate runtime-parametric
theorems: it evaluates every expression to 16 (the value of `8/0.5`). -/
def constRuntime : JsRuntime :=
  { evalArith := fun _ => JsEvalResult.finite 16
    numToString := fun _ => "16"
    numToExponential6 := fun _ => "1.600000e+1" }

theorem injectVoiceExpression_none (now : ℤ) (conf : ℚ) (s : ClientState) :
    injectVoiceExpression now none conf s = s := rfl

theorem injectVoiceExpression_sanitized_empty (now : ℤ) (e : String) (conf : ℚ)
    (s : ClientState) (h : sanitizeVoice e = "") :
    injectVoiceExpression now (some e) conf s = s := by
  by_cases he : e = ""
  · simp [injectVoiceExpression, he]
  · simp [injectVoiceExpression, he, h]

theorem injectVoiceExpression_discard (now : ℤ) (e : String) (conf : ℚ) (s : ClientState)
    (hd : sanitizeVoice e = s.lastVoiceExpression ∧ now - s.lastVoiceTimestamp < 300) :
    injectVoiceExpression now (some e) conf s = s := by
  by_cases he : e = ""
  · simp [injectVoiceExpression, he]
  · by_cases hsan : sanitizeVoice e = ""
    · simp [injectVoiceExpression, he, hsan]
    · simp [injectVoiceExpression, he, hsan, hd]

theorem injectVoiceExpression_accept (now : ℤ) (e : String) (conf : ℚ) (s : ClientState)
    (hsan : sanitizeVoice e ≠ "")
    (hnew : ¬(sanitizeVoice e = s.lastVoiceExpression ∧ now - s.lastVoiceTimestamp < 300)) :
    injectVoiceExpression now (some e) conf s =
      { currentExpression := sanitizeVoice e
        shouldResetOnNextInput := false
        history := s.history
        lastVoiceExpression := sanitizeVoice e
        lastVoiceTimestamp := now
        ui :=
          if conf < (0.4 : ℚ) then
            { state := UiState.listening, message := "Low confidence, please repeat" }
          else s.ui
        active := s.active
        eventSourceOpen := s.eventSourceOpen
        reconnectTimerPending := s.reconnectTimerPending
        reconnectAttempts := s.reconnectAttempts
        netLog := s.netLog } := by
  have he : e ≠ "" := by
    intro h
    apply hsan
    rw [h]
    rfl
  simp only [injectVoiceExpression, he, if_neg, hsan, hnew, ite_false]
  split_ifs with h1 h2 h2 <;> simp_all

/-- C10: for every result event whose expression is absent (`null`/
`undefined`) or sanitizes to the empty string, `injectVoiceExpression`
changes nothing: the whole client state — in particular the current host
expression, the reset-on-next-input flag, the last-accepted expression and
the last-accepted timestamp — keeps its prior value. -/
theorem claim_empty_expression_frame (now : ℤ) (e : String) (conf : ℚ) (s : ClientState)
    (h : sanitizeVoice e = "") :
    injectVoiceExpression now none conf s = s ∧
    injectVoiceExpression now (some e) conf s = s := by
  exact ⟨injectVoiceExpression_none now conf s,
         injectVoiceExpression_sanitized_empty now e conf s h⟩

/-- Witness for C10 at the concrete input `"three x!"` (no surviving
character), on a mid-session state. -/
theorem claim_empty_expression_frame_witness :
    sanitizeVoice "three x!" = "" ∧
    injectVoiceExpression 500 none 1 listeningState = listeningState ∧
    injectVoiceExpression 500 (some "three x!") 1 listeningState = listeningState := by
  have h := claim_empty_expression_frame 500 "three x!" 1 listeningState (by decide)
  exact ⟨by decide, h.1, h.2⟩

/-- C3: a voice expression is handed to the host calculator only in
sanitized form. Whenever `injectVoiceExpression` changes the host
expression at all, the new value is exactly the input with every character
other than digits, `+`, `-`, `*`, `/`, parentheses and the decimal point
removed, so every surviving character is from that set. -/
theorem claim_sanitized_injection (now : ℤ) (e : String) (conf : ℚ) (s : ClientState) :
    (injectVoiceExpression now (some e) conf s).currentExpression = s.currentExpression ∨
    ((injectVoiceExpression now (some e) conf s).currentExpression.data =
        e.data.filter isVoiceAllowedChar ∧
      ∀ c ∈ (injectVoiceExpression now (some e) conf s).currentExpression.data,
        isVoiceAllowedChar c = true) := by
  by_cases hsan : sanitizeVoice e = ""
  · left
    rw [injectVoiceExpression_sanitized_empty now e conf s hsan]
  · by_cases hd : sanitizeVoice e = s.lastVoiceExpression ∧ now - s.lastVoiceTimestamp < 300
    · left
      rw [injectVoiceExpression_discard now e conf s hd]
    · right
      rw [injectVoiceExpression_accept now e conf s hsan hd]
      constructor
      · rfl
      · intro c hc
        exact (List.mem_filter.mp hc).2

/-- C6: a stream message whose body cannot be parsed (`JSON.parse` throws)
or parses to a non-object is dropped: the handler returns with the entire
client state — connection fields and host calculator fields alike —
unchanged, and in particular does not tear down the stream. -/
theorem claim_malformed_payload_dropped (rt : JsRuntime) (now : ℤ) (s : ClientState) :
    onStreamMessage rt now StreamMessage.unparseable s = s ∧
    ∀ v : JsScalar, onStreamMessage rt now (StreamMessage.parsed (IncomingJson.nonObject v)) s = s := by
  exact ⟨rfl, fun _ => rfl⟩

/-- C7: calling `start()` while already active only re-shows the Listening
status: the resulting state is the old one with just the UI replaced, so no
fetch is issued (the network trace is unchanged), no new event stream is
opened, and no connection field moves. -/
theorem claim_start_when_active_noop (startOk : Bool) (s : ClientState) (h : s.active = true) :
    vcStart startOk s = { s with ui := { state := UiState.listening, message := "Listening…" } } := by
  simp [vcStart, h]

/-- Witness for C7 on a concrete active state (the outcome flag of the
never-issued start request is irrelevant, so it is instantiated with
`false`). -/
theorem claim_start_when_active_noop_witness :
    listeningState.active = true ∧
    vcStart false listeningState =
      { listeningState with ui := { state := UiState.listening, message := "Listening…" } } :=
  ⟨rfl, claim_start_when_active_noop false listeningState rfl⟩

/-- C8: `stop()` takes every state to Idle — afterwards there is no open
event stream, no pending reconnect timer, a zero attempt counter, an
inactive flag and the `Mic off` idle UI — and a second consecutive `stop()`
is a harmless no-op: it leaves every one of those state fields identical,
its only effect being one more (idempotent) POST of the stop request in the
network trace. -/
theorem claim_stop_idempotent_idle (s : ClientState) :
    vcStop false s =
      { s with active := false, eventSourceOpen := false, reconnectTimerPending := false,
               reconnectAttempts := 0,
               ui := { state := UiState.idle, message := "Mic off" },
               netLog := s.netLog ++ ["POST /voice/stop"] } ∧
    vcStop false (vcStop false s) =
      { vcStop false s with
          netLog := (vcStop false s).netLog ++ ["POST /voice/stop"] } := by
  exact ⟨rfl, rfl⟩

/-- C9: the division-by-zero guard of `safeEvaluate` is a textual test, not
a test on the divisor's value: whatever the arithmetic evaluator would
return, any input whose cleaned expression text contains the substring
`/0` is rejected with `'Invalid expression'`. -/
theorem claim_divzero_guard_textual (rt : JsRuntime) (expression : String)
    (h : containsDivZero (safeEvaluatePrepared expression).data = true) :
    safeEvaluate rt expression = Except.error "Invalid expression" := by
  unfold safeEvaluate
  simp [h]

/-- Witness for C9 at the mathematically well-defined division `"8/0.5"`:
its cleaned text contains `/0`, so the guard fires even though the
evaluator (here returning the true value 16) is never consulted. -/
theorem claim_divzero_guard_textual_witness :
    containsDivZero (safeEvaluatePrepared "8/0.5").data = true ∧
    safeEvaluate constRuntime "8/0.5" = Except.error "Invalid expression" :=
  ⟨by decide, claim_divzero_guard_textual constRuntime "8/0.5" (by decide)⟩

/-- C1: dedup of received result expressions. When the sanitized expression
is non-empty, `injectVoiceExpression` discards the event (state unchanged)
exactly when it equals the previously accepted expression and strictly less
than 300ms have elapsed since that acceptance; when at least 300ms have
elapsed or the expression differs it accepts the event, updating the host
expression and the last-accepted expression/timestamp pair. -/
theorem claim_result_dedup_window (s : ClientState) (now : ℤ) (e : String) (conf : ℚ)
    (hsan : sanitizeVoice e ≠ "") :
    (sanitizeVoice e = s.lastVoiceExpression ∧ now - s.lastVoiceTimestamp < 300 →
        injectVoiceExpression now (some e) conf s = s) ∧
    ((sanitizeVoice e = s.lastVoiceExpression → 300 ≤ now - s.lastVoiceTimestamp) →
        (injectVoiceExpression now (some e) conf s).currentExpression = sanitizeVoice e ∧
        (injectVoiceExpression now (some e) conf s).lastVoiceExpression = sanitizeVoice e ∧
        (injectVoiceExpression now (some e) conf s).lastVoiceTimestamp = now) := by
  constructor
  · intro hd
    exact injectVoiceExpression_discard now e conf s hd
  · intro hge
    have hnew : ¬(sanitizeVoice e = s.lastVoiceExpression ∧ now - s.lastVoiceTimestamp < 300) := by
      rintro ⟨ha, hb⟩
      have := hge ha
      omega
    rw [injectVoiceExpression_accept now e conf s hsan hnew]
    exact ⟨rfl, rfl, rfl⟩

/-- Witness for C1: on a state that accepted `"1+1"` at time 0, the same
expression is discarded at time 100 (within the 300ms window) and accepted
at time 400 (outside it). -/
theorem claim_result_dedup_window_witness :
    injectVoiceExpression 100 (some "1+1") 1 listeningState = listeningState ∧
    (injectVoiceExpression 400 (some "1+1") 1 listeningState).currentExpression = "1+1" ∧
    (injectVoiceExpression 400 (some "1+1") 1 listeningState).lastVoiceTimestamp = 400 := by
  have h1 := claim_result_dedup_window listeningState 100 "1+1" 1 (by decide)
  have h2 := claim_result_dedup_window listeningState 400 "1+1" 1 (by decide)
  refine ⟨h1.1 ⟨by decide, by decide⟩, ?_, (h2.2 (fun _ => by decide)).2.2⟩
  rw [(h2.2 (fun _ => by decide)).1]
  decide

/-- C5: a result event with confidence below the 0.4 threshold is applied
to the host calculator exactly like a high-confidence one — every state
field other than the displayed status agrees with the confidence-1 run of
the same event — and whenever the event changes the state at all the only
extra effect of the low confidence is the `Low confidence, please repeat`
status message. -/
theorem claim_low_confidence_applies (now : ℤ) (e : Option String) (conf : ℚ)
    (s : ClientState) (hconf : conf < (0.4 : ℚ)) :
    (injectVoiceExpression now e conf s).currentExpression =
        (injectVoiceExpression now e 1 s).currentExpression ∧
    (injectVoiceExpression now e conf s).shouldResetOnNextInput =
        (injectVoiceExpression now e 1 s).shouldResetOnNextInput ∧
    (injectVoiceExpression now e conf s).history = (injectVoiceExpression now e 1 s).history ∧
    (injectVoiceExpression now e conf s).lastVoiceExpression =
        (injectVoiceExpression now e 1 s).lastVoiceExpression ∧
    (injectVoiceExpression now e conf s).lastVoiceTimestamp =
        (injectVoiceExpression now e 1 s).lastVoiceTimestamp ∧
    (injectVoiceExpression now e conf s).active = (injectVoiceExpression now e 1 s).active ∧
    (injectVoiceExpression now e conf s).eventSourceOpen =
        (injectVoiceExpression now e 1 s).eventSourceOpen ∧
    (injectVoiceExpression now e conf s).reconnectTimerPending =
        (injectVoiceExpression now e 1 s).reconnectTimerPending ∧
    (injectVoiceExpression now e conf s).reconnectAttempts =
        (injectVoiceExpression now e 1 s).reconnectAttempts ∧
    (injectVoiceExpression now e conf s).netLog = (injectVoiceExpression now e 1 s).netLog ∧
    (injectVoiceExpression now e conf s ≠ s →
      (injectVoiceExpression now e conf s).ui =
        { state := UiState.listening, message := "Low confidence, please repeat" }) := by
  cases e with
  | none =>
    refine ⟨rfl, rfl, rfl, rfl, rfl, rfl, rfl, rfl, rfl, rfl, ?_⟩
    intro hne
    exact absurd (injectVoiceExpression_none now conf s) hne
  | some e =>
    by_cases hsan : sanitizeVoice e = ""
    · rw [injectVoiceExpression_sanitized_empty now e conf s hsan,
          injectVoiceExpression_sanitized_empty now e 1 s hsan]
      exact ⟨rfl, rfl, rfl, rfl, rfl, rfl, rfl, rfl, rfl, rfl, fun hne => absurd rfl hne⟩
    · by_cases hd : sanitizeVoice e = s.lastVoiceExpression ∧ now - s.lastVoiceTimestamp < 300
      · rw [injectVoiceExpression_discard now e conf s hd,
            injectVoiceExpression_discard now e 1 s hd]
        exact ⟨rfl, rfl, rfl, rfl, rfl, rfl, rfl, rfl, rfl, rfl, fun hne => absurd rfl hne⟩
      · rw [injectVoiceExpression_accept now e conf s hsan hd,
            injectVoiceExpression_accept now e 1 s hsan hd]
        refine ⟨rfl, rfl, rfl, rfl, rfl, rfl, rfl, rfl, rfl, rfl, ?_⟩
        intro _
        simp [hconf]

/-- Witness for C5 at confidence 0 on an accepted event: the injected
expression matches the confidence-1 run and the status shows the
low-confidence message. -/
theorem claim_low_confidence_applies_witness :
    (0 : ℚ) < 0.4 ∧
    (injectVoiceExpression 400 (some "2+2") 0 listeningState).currentExpression =
      (injectVoiceExpression 400 (some "2+2") 1 listeningState).currentExpression ∧
    (injectVoiceExpression 400 (some "2+2") 0 listeningState ≠ listeningState →
      (injectVoiceExpression 400 (some "2+2") 0 listeningState).ui =
        { state := UiState.listening, message := "Low confidence, please repeat" }) := by
  have h := claim_low_confidence_applies 400 (some "2+2") 0 listeningState (by norm_num)
  exact ⟨by norm_num, h.1, h.2.2.2.2.2.2.2.2.2.2⟩

/-- C4 counterexample: at concrete unknown tags the consumer's dispatch is
exactly a no-op, not a rejection. A payload with the unknown type
`telemetry` and a result payload with the unknown action `frobnicate` each
leave the entire client state — UI, connection fields, host calculator and
network trace — bit-for-bit unchanged, so no malformed-payload rejection of
any observable kind takes place, contradicting the claim that every
unrecognized tag is treated as a malformed payload instead of a no-op. -/
theorem claim_unknown_tags_counterexample :
    handleVoicePayload constRuntime 0
        (IncomingJson.object
          { type := some "telemetry", state := none, message := none, level := none,
            action := none, expression := none, expression_confidence := none })
        listeningState = listeningState ∧
    handleVoiceResult constRuntime 0
        { type := some "result", state := none, message := none, level := none,
          action := some "frobnicate", expression := none, expression_confidence := none }
        listeningState = listeningState := by
  exact ⟨by decide, by decide⟩

/-- C4 as amended: events whose type tag or result action tag is unknown
are silently ignored rather than rejected — `handleVoicePayload` falls
through its type dispatch and `handleVoiceResult`'s `default` case is a
no-op, each leaving the client state unchanged. -/
theorem claim_unknown_tags_ignored (rt : JsRuntime) (now : ℤ) (s : ClientState)
    (p q : VoicePayload)
    (hp1 : p.type ≠ some "status") (hp2 : p.type ≠ some "result")
    (hq1 : q.action ≠ some "append_expression") (hq2 : q.action ≠ some "calculate")
    (hq3 : q.action ≠ some "clear") (hq4 : q.action ≠ some "backspace")
    (hq5 : q.action ≠ some "stop") :
    handleVoicePayload rt now (IncomingJson.object p) s = s ∧
    handleVoiceResult rt now q s = s := by
  constructor
  · simp [handleVoicePayload, hp1, hp2]
  · simp [handleVoiceResult, hq1, hq2, hq3, hq4, hq5]

/-- Witness for the amended C4 at concrete unknown tags on the initial
state. -/
theorem claim_unknown_tags_ignored_witness :
    handleVoicePayload constRuntime 5
        (IncomingJson.object
          { type := some "heartbeat", state := none, message := none, level := none,
            action := none, expression := none, expression_confidence := none })
        initialState = initialState ∧
    handleVoiceResult constRuntime 5
        { type := some "result", state := none, message := none, level := none,
          action := some "reset", expression := none, expression_confidence := none }
        initialState = initialState := by
  exact claim_unknown_tags_ignored constRuntime 5 initialState _ _
    (by decide) (by decide) (by decide) (by decide) (by decide) (by decide) (by decide)

/-- C2: from a listening state (active, stream open, no pending timer, zero
attempts), a stream error followed by exactly 4 consecutive failed reconnect
attempts leaves the client in the terminal `Voice connection lost` error
state: inactive, with no open stream, no pending timer and a reset counter,
having POSTed exactly 4 start requests and then — on reaching the cap —
one stop request to the server; and from that terminal state even a further
stream event error schedules no timer and issues no request, so no reconnect
attempt happens until `start()` is called again. -/
theorem claim_reconnect_cap_terminal (s : ClientState) (hact : s.active = true)
    (htimer : s.reconnectTimerPending = false) (hatt : s.reconnectAttempts = 0) :
    iterateFailedFire 4 (vcStreamError s) =
      { s with eventSourceOpen := false, active := false, reconnectTimerPending := false,
               reconnectAttempts := 0,
               ui := { state := UiState.error, message := "Voice connection lost" },
               netLog := s.netLog ++ ["POST /voice/start", "POST /voice/start",
                                      "POST /voice/start", "POST /voice/start",
                                      "POST /voice/stop"] } ∧
    (vcStreamError (iterateFailedFire 4 (vcStreamError s))).reconnectTimerPending = false ∧
    (vcStreamError (iterateFailedFire 4 (vcStreamError s))).netLog =
      (iterateFailedFire 4 (vcStreamError s)).netLog := by
  have h : iterateFailedFire 4 (vcStreamError s) =
      { s with eventSourceOpen := false, active := false, reconnectTimerPending := false,
               reconnectAttempts := 0,
               ui := { state := UiState.error, message := "Voice connection lost" },
               netLog := s.netLog ++ ["POST /voice/start", "POST /voice/start",
                                      "POST /voice/start", "POST /voice/start",
                                      "POST /voice/stop"] } := by
    simp [iterateFailedFire, vcStreamError, vcScheduleReconnect, vcReconnectTimerFire,
          vcStop, hact, htimer, hatt]
  refine ⟨h, ?_, ?_⟩ <;> rw [h] <;> simp [vcStreamError]

/-- Witness for C2: a freshly started session (one successful `start()`)
run through a stream error and 4 failed reconnects lands in the terminal
error state with the expected request trace. -/
theorem claim_reconnect_cap_terminal_witness :
    (vcStart true initialState).active = true ∧
    iterateFailedFire 4 (vcStreamError (vcStart true initialState)) =
      { vcStart true initialState with
          eventSourceOpen := false, active := false, reconnectTimerPending := false,
          reconnectAttempts := 0,
          ui := { state := UiState.error, message := "Voice connection lost" },
          netLog := (vcStart true initialState).netLog ++
            ["POST /voice/start", "POST /voice/start", "POST /voice/start",
             "POST /voice/start", "POST /voice/stop"] } := by
  have h := claim_reconnect_cap_terminal (vcStart true initialState) rfl rfl rfl
  exact ⟨rfl, h.1⟩

end ProCalc
